import Mathlib

/-!
libmotioncapture, the Vicon adapter (`src/vicon.cpp`).

A shallow embedding of `MotionCaptureVicon` and of the part of the Vicon
DataStream client it talks to, followed by the properties of the adapter.

* The Vicon client is an external, stateful object.  It is embedded as a
  record of state-passing operations over an arbitrary client state `σ`:
  every call returns its output together with the next client state, so
  nothing is assumed about two calls answering alike.
* C++ `double` and `float` are two arbitrary types `D` and `F`; the only
  arithmetic the adapter performs (division by the literal `1000.0` and the
  implicit `double`→`float` conversion) is collected in `Arith`.
* `size_t` is 64 bits wide; the SDK reports counts as `unsigned int`.
-/

namespace libmotioncapture

/-! ## Scalars and machine integers -/

/-- The floating-point operations used by the adapter: `div` is `double`
division, `thousand` the literal `1000.0`, `toFloat` the implicit conversion
performed when a `double` initialises a `float` coefficient. -/
structure Arith (D F : Type) where
  div : D → D → D
  thousand : D
  toFloat : D → F

/-- Number of values of the SDK's `unsigned int`. -/
abbrev UINT_MOD : Nat := 4294967296

/-- Number of values of `size_t`. -/
abbrev SIZE_MOD : Nat := 18446744073709551616

/-- An `unsigned int` as reported in the SDK's count fields. -/
abbrev CUInt : Type := Fin UINT_MOD

/-- Addition on `size_t`. -/
def sizeAdd (a b : Nat) : Nat := (a + b) % SIZE_MOD

/-! ## The Vicon DataStream SDK, as far as the adapter reads it

The SDK is an external library.  Of each output structure only the fields
`vicon.cpp` reads are kept, under the SDK's names. -/

/-- The SDK's `Result::Enum`; the adapter only ever compares with `Success`. -/
inductive Result where
  | Unknown
  | NotImplemented
  | Success
  | NotConnected
  | NoFrame
  | InvalidIndex
  | InvalidSubjectName
  | InvalidSegmentName
  deriving DecidableEq

structure Output_IsConnected where
  Connected : Bool

structure Output_GetVersion where
  Major : CUInt
  Minor : CUInt
  Point : CUInt

structure Output_GetFrame where
  Result : Result

structure Output_GetSubjectCount where
  SubjectCount : CUInt

structure Output_GetSubjectName where
  SubjectName : String

structure Output_GetSegmentGlobalTranslation (D : Type) where
  Result : Result
  Translation : Fin 3 → D
  Occluded : Bool

structure Output_GetSegmentGlobalRotationQuaternion (D : Type) where
  Result : Result
  Rotation : Fin 4 → D
  Occluded : Bool

structure Output_GetUnlabeledMarkerCount where
  MarkerCount : CUInt

structure Output_GetLabeledMarkerCount where
  MarkerCount : CUInt

structure Output_GetUnlabeledMarkerGlobalTranslation (D : Type) where
  Translation : Fin 3 → D

structure Output_GetLabeledMarkerGlobalTranslation (D : Type) where
  Translation : Fin 3 → D

structure Output_GetLatencySampleCount where
  Count : CUInt

structure Output_GetLatencySampleName where
  Name : String

structure Output_GetLatencySampleValue (D : Type) where
  Value : D

/-- The operations of `ViconDataStreamSDK::CPP::Client` the adapter calls,
each as a function from the client state to an output and the next client
state.  The two fixed-argument calls `SetStreamMode(ServerPush)` and
`SetAxisMapping(Forward, Left, Up)` are one operation each.  An index
argument is a `size_t` below a count the client reported as `unsigned int`,
so passing it on as `unsigned int` does not change it. -/
structure Client (σ D : Type) where
  IsConnected : σ → Output_IsConnected × σ
  Connect : String → σ → σ
  EnableSegmentData : σ → σ
  EnableUnlabeledMarkerData : σ → σ
  EnableMarkerData : σ → σ
  SetStreamModeServerPush : σ → σ
  SetAxisMappingForwardLeftUp : σ → σ
  GetVersion : σ → Output_GetVersion × σ
  GetFrame : σ → Output_GetFrame × σ
  GetSubjectCount : σ → Output_GetSubjectCount × σ
  GetSubjectName : Nat → σ → Output_GetSubjectName × σ
  GetSegmentGlobalTranslation : String → String → σ → Output_GetSegmentGlobalTranslation D × σ
  GetSegmentGlobalRotationQuaternion :
    String → String → σ → Output_GetSegmentGlobalRotationQuaternion D × σ
  GetUnlabeledMarkerCount : σ → Output_GetUnlabeledMarkerCount × σ
  GetUnlabeledMarkerGlobalTranslation :
    Nat → σ → Output_GetUnlabeledMarkerGlobalTranslation D × σ
  GetLabeledMarkerCount : σ → Output_GetLabeledMarkerCount × σ
  GetLabeledMarkerGlobalTranslation : Nat → σ → Output_GetLabeledMarkerGlobalTranslation D × σ
  GetLatencySampleCount : σ → Output_GetLatencySampleCount × σ
  GetLatencySampleName : Nat → σ → Output_GetLatencySampleName × σ
  GetLatencySampleValue : String → σ → Output_GetLatencySampleValue D × σ

/-! ## Eigen and libmotioncapture value types -/

/-- Embeds `Eigen::Vector3f`, also one row of the `N × 3` point-cloud matrix. -/
structure Vector3f (F : Type) where
  x : F
  y : F
  z : F
  deriving DecidableEq

/-- Embeds `Eigen::Quaternionf`; its constructor takes the coefficients in the
order `(w, x, y, z)`. -/
structure Quaternionf (F : Type) where
  w : F
  x : F
  y : F
  z : F
  deriving DecidableEq

/-- Modelled from the spec: the `RigidBody` value type of the missing header
`libmotioncapture/motioncapture.h`, "{ name: string, position: 3-vector of
float (meters), orientation: unit quaternion }", built by
`RigidBody(name, position, rotation)`. -/
structure RigidBody (F : Type) where
  name : String
  position : Vector3f F
  rotation : Quaternionf F
  deriving DecidableEq

/-- Modelled from the spec: the `LatencyInfo` value type of the missing
header, "{ name: string, value: float (seconds) }", built by
`LatencyInfo(name, value)` from a `std::string` and a `double`. -/
structure LatencyInfo (D : Type) where
  name : String
  value : D
  deriving DecidableEq

/-- Modelled from the spec: the `PointCloud` type of the missing header, an
"ordered sequence of 3-vectors (meters), one row per marker". -/
abbrev PointCloud (F : Type) : Type := List (Vector3f F)

/-! ## `std::map<std::string, RigidBody>` -/

/-- A `std::map` keyed by `std::string`: its entries in iteration order. -/
abbrev StdMap (V : Type) : Type := List (String × V)

namespace StdMap

variable {V : Type}

/-- Member `find`: the value stored under `k`, if any. -/
def find (k : String) : StdMap V → Option V
  | [] => none
  | (k', v) :: rest => if k = k' then some v else find k rest

/-- Whether `k` is a key of the map. -/
def contains (k : String) (m : StdMap V) : Bool := (find k m).isSome

/-- The keys of the map, in iteration order. -/
def keys (m : StdMap V) : List String := m.map Prod.fst

/-- Placement of a new entry at its position in key order. -/
def insertSorted (k : String) (v : V) : StdMap V → StdMap V
  | [] => [(k, v)]
  | (k', v') :: rest =>
    if k < k' then (k, v) :: (k', v') :: rest else (k', v') :: insertSorted k v rest

/-- Member `emplace`: inserts `(k, v)` only when no entry with key `k` exists;
an existing entry is left untouched. -/
def emplace (k : String) (v : V) (m : StdMap V) : StdMap V :=
  if contains k m then m else insertSorted k v m

end StdMap

/-! ## The adapter object -/

/-- Embeds `MotionCaptureViconImpl`: the client and the version string. -/
structure MotionCaptureViconImpl (σ : Type) where
  client : σ
  version : String

/-- Embeds `MotionCaptureVicon`: the implementation pointer, the constructor flag it
keeps, and the three output buffers it owns. -/
structure MotionCaptureVicon (σ D F : Type) where
  pImpl : MotionCaptureViconImpl σ
  addLabeledMarkersToPointcloud : Bool
  rigidBodies_ : StdMap (RigidBody F)
  pointcloud_ : PointCloud F
  latencies_ : List (LatencyInfo D)

section Adapter

variable {σ D F : Type}

/-- The `for (size_t i = 0; i < count; ++i)` loop: `body i` is run on the
loop state for `i = 0, 1, …, count - 1` in this order. -/
def forLoop {τ : Type} (count : Nat) (body : Nat → τ → τ) (init : τ) : τ :=
  (List.range count).foldl (fun st i => body i st) init

/-- Embeds `Eigen::Vector3f position(t[0] / 1000.0, t[1] / 1000.0, t[2] / 1000.0)`. -/
def mmToVector3f (A : Arith D F) (t : Fin 3 → D) : Vector3f F :=
  Vector3f.mk (A.toFloat (A.div (t 0) A.thousand))
    (A.toFloat (A.div (t 1) A.thousand))
    (A.toFloat (A.div (t 2) A.thousand))

/-- Embeds `Eigen::Quaternionf rotation(r[3], r[0], r[1], r[2])`. -/
def toQuaternionf (A : Arith D F) (r : Fin 4 → D) : Quaternionf F :=
  Quaternionf.mk (A.toFloat (r 3)) (A.toFloat (r 0)) (A.toFloat (r 1)) (A.toFloat (r 2))

/-- The condition guarding both rigid-body conversions. -/
def usable (translation : Output_GetSegmentGlobalTranslation D)
    (quaternion : Output_GetSegmentGlobalRotationQuaternion D) : Bool :=
  decide (translation.Result = Result.Success)
    && decide (quaternion.Result = Result.Success)
    && !translation.Occluded
    && !quaternion.Occluded

/-- The body of the loop of `rigidBodies()` on the pair of client state and
`rigidBodies_`. -/
def rigidBodiesBody (c : Client σ D) (A : Arith D F) (i : Nat)
    (st : σ × StdMap (RigidBody F)) : σ × StdMap (RigidBody F) :=
  let r0 := c.GetSubjectName i st.1
  let name := r0.1.SubjectName
  let r1 := c.GetSegmentGlobalTranslation name name r0.2
  let translation := r1.1
  let r2 := c.GetSegmentGlobalRotationQuaternion name name r1.2
  let quaternion := r2.1
  if usable translation quaternion then
    let position := mmToVector3f A translation.Translation
    let rotation := toQuaternionf A quaternion.Rotation
    (r2.2, StdMap.emplace name (RigidBody.mk name position rotation) st.2)
  else
    (r2.2, st.2)

/-- Embeds `MotionCaptureVicon::rigidBodies()`: the adapter after the call; the
reference returned is its `rigidBodies_`. -/
def rigidBodies (c : Client σ D) (A : Arith D F) (self : MotionCaptureVicon σ D F) :
    MotionCaptureVicon σ D F :=
  let cleared : StdMap (RigidBody F) := []
  let r := c.GetSubjectCount self.pImpl.client
  let count := r.1.SubjectCount.val
  let fin := forLoop count (rigidBodiesBody c A) (r.2, cleared)
  { self with pImpl := { self.pImpl with client := fin.1 }, rigidBodies_ := fin.2 }

/-- Embeds `MotionCaptureVicon::rigidBodyByName(name)`: the returned body or the
thrown `std::runtime_error`, and the adapter after the call. -/
def rigidBodyByName (c : Client σ D) (A : Arith D F) (self : MotionCaptureVicon σ D F)
    (name : String) : Except String (RigidBody F) × MotionCaptureVicon σ D F :=
  let r1 := c.GetSegmentGlobalTranslation name name self.pImpl.client
  let translation := r1.1
  let r2 := c.GetSegmentGlobalRotationQuaternion name name r1.2
  let quaternion := r2.1
  let self' := { self with pImpl := { self.pImpl with client := r2.2 } }
  if usable translation quaternion then
    let position := mmToVector3f A translation.Translation
    let rotation := toQuaternionf A quaternion.Rotation
    (Except.ok (RigidBody.mk name position rotation), self')
  else
    (Except.error "Unknown rigid body!", self')

/-- The loop `while (!client.IsConnected().Connected) client.Connect(hostname);`
of the constructor, for at most `fuel` tests of the condition. -/
def connectLoop (c : Client σ D) (hostname : String) : Nat → σ → Option σ
  | 0, _ => none
  | fuel + 1, s =>
    let r := c.IsConnected s
    if r.1.Connected then some r.2 else connectLoop c hostname fuel (c.Connect hostname r.2)

/-- The constructor `MotionCaptureVicon::MotionCaptureVicon`, run on a client
in state `s`; `none` when the connection loop outlives `fuel`. -/
def construct (c : Client σ D) (fuel : Nat) (hostname : String)
    (enableObjects enablePointcloud addLabeledMarkersToPointcloud : Bool) (s : σ) :
    Option (MotionCaptureVicon σ D F) :=
  match connectLoop c hostname fuel s with
  | none => none
  | some s1 =>
    let s2 := if enableObjects then c.EnableSegmentData s1 else s1
    let s3 :=
      if enablePointcloud then
        let t := c.EnableUnlabeledMarkerData s2
        if addLabeledMarkersToPointcloud then c.EnableMarkerData t else t
      else s2
    let s4 := c.SetStreamModeServerPush s3
    let s5 := c.SetAxisMappingForwardLeftUp s4
    let version := c.GetVersion s5
    let sstr := toString version.1.Major.val ++ "." ++ toString version.1.Minor.val
      ++ "." ++ toString version.1.Point.val
    some (MotionCaptureVicon.mk (MotionCaptureViconImpl.mk version.2 sstr)
      addLabeledMarkersToPointcloud [] [] [])

/-- Embeds `MotionCaptureVicon::version()`. -/
def version (self : MotionCaptureVicon σ D F) : String := self.pImpl.version

/-- Embeds `MotionCaptureVicon::waitForNextFrame()` for at most `fuel` frame
requests.  Besides the adapter after the call it returns the results of the
requests it issued, in order. -/
def waitForNextFrame (c : Client σ D) :
    Nat → MotionCaptureVicon σ D F → Option (MotionCaptureVicon σ D F × List Result)
  | 0, _ => none
  | fuel + 1, self =>
    let r := c.GetFrame self.pImpl.client
    let self1 := { self with pImpl := { self.pImpl with client := r.2 } }
    if r.1.Result ≠ Result.Success then
      match waitForNextFrame c fuel self1 with
      | none => none
      | some (self2, requests) => some (self2, r.1.Result :: requests)
    else
      some (self1, [r.1.Result])

/-- The state of a run of `pointCloud()`: the client, the matrix, and the
row indices written so far (kept for the analysis only). -/
structure PointCloudRun (σ F : Type) where
  client : σ
  pointcloud_ : PointCloud F
  written : List Nat

/-- Embeds `pointcloud_.resize(rows, Eigen::NoChange)`: nothing happens when the
row count is already `rows`; otherwise the storage is reallocated and its
coefficients are whatever the new memory holds, here `fresh`. -/
def resize (fresh : Nat → Vector3f F) (pointcloud_ : PointCloud F) (rows : Nat) :
    PointCloud F :=
  if pointcloud_.length = rows then pointcloud_ else (List.range rows).map fresh

/-- Embeds `pointcloud_.row(i) << a, b, c;` with `v = (a, b, c)`: defined only for a
row index inside the matrix. -/
def writeRow (st : PointCloudRun σ F) (i : Nat) (v : Vector3f F) :
    Option (PointCloudRun σ F) :=
  if i < st.pointcloud_.length then
    some (PointCloudRun.mk st.client (st.pointcloud_.set i v) (st.written ++ [i]))
  else none

/-- A `for (size_t i = 0; i < count; ++i)` loop whose body may fail. -/
def forLoopOpt {τ : Type} (count : Nat) (body : Nat → τ → Option τ) (init : τ) : Option τ :=
  (List.range count).foldlM (fun st i => body i st) init

/-- The body of the first loop of `pointCloud()`. -/
def unlabeledBody (c : Client σ D) (A : Arith D F) (i : Nat) (st : PointCloudRun σ F) :
    Option (PointCloudRun σ F) :=
  let r := c.GetUnlabeledMarkerGlobalTranslation i st.client
  let translation := r.1
  writeRow (PointCloudRun.mk r.2 st.pointcloud_ st.written) i
    (mmToVector3f A translation.Translation)

/-- The body of the second loop of `pointCloud()`. -/
def labeledBody (c : Client σ D) (A : Arith D F) (count : Nat) (i : Nat)
    (st : PointCloudRun σ F) : Option (PointCloudRun σ F) :=
  let r := c.GetLabeledMarkerGlobalTranslation i st.client
  let translation := r.1
  writeRow (PointCloudRun.mk r.2 st.pointcloud_ st.written) (sizeAdd i count)
    (mmToVector3f A translation.Translation)

/-- Embeds `MotionCaptureVicon::pointCloud()`, as a run from the adapter state. -/
def pointCloudRun (c : Client σ D) (A : Arith D F) (fresh : Nat → Vector3f F)
    (self : MotionCaptureVicon σ D F) : Option (PointCloudRun σ F) :=
  let r0 := c.GetUnlabeledMarkerCount self.pImpl.client
  let count := r0.1.MarkerCount.val
  let r1 := c.GetLabeledMarkerCount r0.2
  let count_labeled := r1.1.MarkerCount.val
  let resized :=
    if self.addLabeledMarkersToPointcloud then
      resize fresh self.pointcloud_ (sizeAdd count count_labeled)
    else
      resize fresh self.pointcloud_ count
  match forLoopOpt count (unlabeledBody c A) (PointCloudRun.mk r1.2 resized []) with
  | none => none
  | some st =>
    if self.addLabeledMarkersToPointcloud then
      forLoopOpt count_labeled (labeledBody c A count) st
    else
      some st

/-- Embeds `MotionCaptureVicon::pointCloud()`: the adapter after the call, whose
`pointcloud_` is the reference returned; `none` when a row outside the
matrix is written. -/
def pointCloud (c : Client σ D) (A : Arith D F) (fresh : Nat → Vector3f F)
    (self : MotionCaptureVicon σ D F) : Option (MotionCaptureVicon σ D F) :=
  match pointCloudRun c A fresh self with
  | none => none
  | some st =>
    some { self with pImpl := { self.pImpl with client := st.client },
                     pointcloud_ := st.pointcloud_ }

/-- The body of the loop of `latency()` on the pair of client state and
`latencies_`. -/
def latencyBody (c : Client σ D) (i : Nat) (st : σ × List (LatencyInfo D)) :
    σ × List (LatencyInfo D) :=
  let r0 := c.GetLatencySampleName i st.1
  let sampleName := r0.1.Name
  let r1 := c.GetLatencySampleValue sampleName r0.2
  let sampleValue := r1.1.Value
  (r1.2, st.2 ++ [LatencyInfo.mk sampleName sampleValue])

/-- Embeds `MotionCaptureVicon::latency()`: the adapter after the call; the
reference returned is its `latencies_`. -/
def latency (c : Client σ D) (self : MotionCaptureVicon σ D F) : MotionCaptureVicon σ D F :=
  let cleared : List (LatencyInfo D) := []
  let r := c.GetLatencySampleCount self.pImpl.client
  let latencyCount := r.1.Count.val
  let fin := forLoop latencyCount (latencyBody c) (r.2, cleared)
  { self with pImpl := { self.pImpl with client := fin.1 }, latencies_ := fin.2 }

/-! ## What the upstream answered during a call

The client is stateful, so "the answer for index `i`" is the answer given to
the `i`-th round of queries of a loop, in the client state the earlier rounds
left behind. -/

/-- The client state after rounds `0, …, n - 1` of `query`, started in `s`. -/
def stateAfter {α : Type} (query : Nat → σ → α × σ) : Nat → σ → σ
  | 0, s => s
  | n + 1, s => (query n (stateAfter query n s)).2

/-- The answer given to round `i` of `query` in a loop started in `s`. -/
def answerAt {α : Type} (query : Nat → σ → α × σ) (s : σ) (i : Nat) : α :=
  (query i (stateAfter query i s)).1

/-- What `rigidBodies()` asks about subject index `i`. -/
structure SubjectAnswer (D : Type) where
  name : String
  translation : Output_GetSegmentGlobalTranslation D
  quaternion : Output_GetSegmentGlobalRotationQuaternion D

/-- The three queries of one round of `rigidBodies()`: the subject name, then
translation and rotation of the segment of that name. -/
def subjectQuery (c : Client σ D) (i : Nat) (s : σ) : SubjectAnswer D × σ :=
  let r0 := c.GetSubjectName i s
  let r1 := c.GetSegmentGlobalTranslation r0.1.SubjectName r0.1.SubjectName r0.2
  let r2 := c.GetSegmentGlobalRotationQuaternion r0.1.SubjectName r0.1.SubjectName r1.2
  (SubjectAnswer.mk r0.1.SubjectName r1.1 r2.1, r2.2)

/-- The two queries of `rigidBodyByName(name)`. -/
def segmentQuery (c : Client σ D) (name : String) (s : σ) : SubjectAnswer D × σ :=
  let r1 := c.GetSegmentGlobalTranslation name name s
  let r2 := c.GetSegmentGlobalRotationQuaternion name name r1.2
  (SubjectAnswer.mk name r1.1 r2.1, r2.2)

/-- Whether a subject passes the success/occlusion filter. -/
def SubjectAnswer.passes (a : SubjectAnswer D) : Prop :=
  a.translation.Result = Result.Success ∧ a.quaternion.Result = Result.Success
    ∧ a.translation.Occluded = false ∧ a.quaternion.Occluded = false

/-- The rigid body the conversions build from the answers for one subject. -/
def SubjectAnswer.body (A : Arith D F) (a : SubjectAnswer D) : RigidBody F :=
  RigidBody.mk a.name (mmToVector3f A a.translation.Translation)
    (toQuaternionf A a.quaternion.Rotation)

/-- The two queries of one round of `latency()`: the sample name, then the
sample value under that name. -/
def latencyQuery (c : Client σ D) (i : Nat) (s : σ) : (String × D) × σ :=
  let r0 := c.GetLatencySampleName i s
  let r1 := c.GetLatencySampleValue r0.1.Name r0.2
  ((r0.1.Name, r1.1.Value), r1.2)

instance (a : SubjectAnswer D) : Decidable a.passes := by
  unfold SubjectAnswer.passes
  infer_instance

/-- The subject count `rigidBodies()`, called on `self`, reads. -/
def subjectCount (c : Client σ D) (self : MotionCaptureVicon σ D F) : Nat :=
  (c.GetSubjectCount self.pImpl.client).1.SubjectCount.val

/-- The answers `rigidBodies()`, called on `self`, obtains for subject index
`i`: the name the index resolves to and the two query results for it. -/
def subjectAnswer (c : Client σ D) (self : MotionCaptureVicon σ D F) (i : Nat) :
    SubjectAnswer D :=
  answerAt (subjectQuery c) (c.GetSubjectCount self.pImpl.client).2 i

/-- The answers `rigidBodyByName(name)`, called on `self`, obtains. -/
def namedAnswer (c : Client σ D) (self : MotionCaptureVicon σ D F) (name : String) :
    SubjectAnswer D :=
  (segmentQuery c name self.pImpl.client).1

/-- The map the loop of `rigidBodies()` has built after rounds `0, …, n - 1`,
in terms of the answers of those rounds. -/
def collect (c : Client σ D) (A : Arith D F) (s : σ) : Nat → StdMap (RigidBody F)
  | 0 => []
  | n + 1 =>
    let a := answerAt (subjectQuery c) s n
    if usable a.translation a.quaternion then StdMap.emplace a.name (a.body A) (collect c A s n)
    else collect c A s n

/-- The property "last write wins" for one call of `rigidBodies()`: whenever at least two
subject indices resolve to a name and pass the filter, the entry under that
name is the body built from the answers for the highest of them. -/
def LastWriteWins (c : Client σ D) (A : Arith D F) (self : MotionCaptureVicon σ D F) : Prop :=
  ∀ (name : String) (first last : Nat), first < last → last < subjectCount c self →
    (subjectAnswer c self first).name = name → (subjectAnswer c self first).passes →
    (subjectAnswer c self last).name = name → (subjectAnswer c self last).passes →
    (∀ j, last < j → j < subjectCount c self → (subjectAnswer c self j).name = name →
      ¬ (subjectAnswer c self j).passes) →
    StdMap.find name (rigidBodies c A self).rigidBodies_
      = some ((subjectAnswer c self last).body A)

/-- The unlabeled marker count `pointCloud()`, called on `self`, reads. -/
def unlabeledCount (c : Client σ D) (self : MotionCaptureVicon σ D F) : Nat :=
  (c.GetUnlabeledMarkerCount self.pImpl.client).1.MarkerCount.val

/-- The labeled marker count `pointCloud()`, called on `self`, reads. -/
def labeledCount (c : Client σ D) (self : MotionCaptureVicon σ D F) : Nat :=
  (c.GetLabeledMarkerCount (c.GetUnlabeledMarkerCount self.pImpl.client).2).1.MarkerCount.val

/-- The client state in which `pointCloud()`, called on `self`, starts its
first loop. -/
def unlabeledStart (c : Client σ D) (self : MotionCaptureVicon σ D F) : σ :=
  (c.GetLabeledMarkerCount (c.GetUnlabeledMarkerCount self.pImpl.client).2).2

/-- The answer `pointCloud()`, called on `self`, obtains for unlabeled marker
index `i`. -/
def unlabeledAnswer (c : Client σ D) (self : MotionCaptureVicon σ D F) (i : Nat) :
    Output_GetUnlabeledMarkerGlobalTranslation D :=
  answerAt c.GetUnlabeledMarkerGlobalTranslation (unlabeledStart c self) i

/-- The client state in which `pointCloud()`, called on `self`, starts its
second loop. -/
def labeledStart (c : Client σ D) (self : MotionCaptureVicon σ D F) : σ :=
  stateAfter c.GetUnlabeledMarkerGlobalTranslation (unlabeledCount c self) (unlabeledStart c self)

/-- The answer `pointCloud()`, called on `self`, obtains for labeled marker
index `j`. -/
def labeledAnswer (c : Client σ D) (self : MotionCaptureVicon σ D F) (j : Nat) :
    Output_GetLabeledMarkerGlobalTranslation D :=
  answerAt c.GetLabeledMarkerGlobalTranslation (labeledStart c self) j

/-- The row count `pointCloud()`, called on `self`, passes to `resize`. -/
def resizedRows (c : Client σ D) (self : MotionCaptureVicon σ D F) : Nat :=
  if self.addLabeledMarkersToPointcloud then sizeAdd (unlabeledCount c self) (labeledCount c self)
  else unlabeledCount c self

/-- The adapter `built` at a later time: the flag and the version string it
was constructed with, around any client state and any buffer contents. -/
def later (built : MotionCaptureVicon σ D F) (s : σ) (rigidBodies_ : StdMap (RigidBody F))
    (pointcloud_ : PointCloud F) (latencies_ : List (LatencyInfo D)) : MotionCaptureVicon σ D F :=
  MotionCaptureVicon.mk (MotionCaptureViconImpl.mk s built.pImpl.version)
    built.addLabeledMarkersToPointcloud rigidBodies_ pointcloud_ latencies_

/-- The latency sample count `latency()`, called on `self`, reads. -/
def latencyCount (c : Client σ D) (self : MotionCaptureVicon σ D F) : Nat :=
  (c.GetLatencySampleCount self.pImpl.client).1.Count.val

/-- The client state in which `latency()`, called on `self`, starts round `i`
of its loop. -/
def latencyState (c : Client σ D) (self : MotionCaptureVicon σ D F) (i : Nat) : σ :=
  stateAfter (latencyQuery c) i (c.GetLatencySampleCount self.pImpl.client).2

/-- The result of frame request number `j` (from `0`) made of a client in
state `s`. -/
def frameResult (c : Client σ D) : Nat → σ → Result
  | 0, s => (c.GetFrame s).1.Result
  | j + 1, s => frameResult c j (c.GetFrame s).2

/-- The client state after `n` frame requests made from state `s`. -/
def afterFrames (c : Client σ D) : Nat → σ → σ
  | 0, s => s
  | n + 1, s => afterFrames c n (c.GetFrame s).2

end Adapter

/-! ## Replayable upstreams for the worked examples -/

/-- Exact rational arithmetic as an instance of `Arith`. -/
def ratArith : Arith ℚ ℚ := Arith.mk (fun a b => a / b) 1000 id

/-- A length as an `unsigned int`. -/
def toCUInt (n : Nat) : CUInt := ⟨n % UINT_MOD, Nat.mod_lt n (by decide)⟩

/-- The data of one frame, as tables. -/
structure Snapshot where
  subjects : List String
  translation : String → Output_GetSegmentGlobalTranslation ℚ
  rotation : String → Output_GetSegmentGlobalRotationQuaternion ℚ
  unlabeled : List (Fin 3 → ℚ)
  labeled : List (Fin 3 → ℚ)
  latencyNames : List String
  latencyValue : String → ℚ

/-- The client that answers every query from the tables of one frame.  Its
state is the list of results its next frame requests will report (`Success`
once the list is used up); queries leave it alone. -/
def Snapshot.client (f : Snapshot) : Client (List Result) ℚ where
  IsConnected := fun s => (Output_IsConnected.mk true, s)
  Connect := fun _ s => s
  EnableSegmentData := fun s => s
  EnableUnlabeledMarkerData := fun s => s
  EnableMarkerData := fun s => s
  SetStreamModeServerPush := fun s => s
  SetAxisMappingForwardLeftUp := fun s => s
  GetVersion := fun s => (Output_GetVersion.mk (toCUInt 1) (toCUInt 2) (toCUInt 3), s)
  GetFrame := fun s => (Output_GetFrame.mk (s.headD Result.Success), s.tail)
  GetSubjectCount := fun s => (Output_GetSubjectCount.mk (toCUInt f.subjects.length), s)
  GetSubjectName := fun i s => (Output_GetSubjectName.mk (f.subjects.getD i ""), s)
  GetSegmentGlobalTranslation := fun subject _ s => (f.translation subject, s)
  GetSegmentGlobalRotationQuaternion := fun subject _ s => (f.rotation subject, s)
  GetUnlabeledMarkerCount := fun s =>
    (Output_GetUnlabeledMarkerCount.mk (toCUInt f.unlabeled.length), s)
  GetUnlabeledMarkerGlobalTranslation := fun i s =>
    (Output_GetUnlabeledMarkerGlobalTranslation.mk (f.unlabeled.getD i ![0, 0, 0]), s)
  GetLabeledMarkerCount := fun s =>
    (Output_GetLabeledMarkerCount.mk (toCUInt f.labeled.length), s)
  GetLabeledMarkerGlobalTranslation := fun i s =>
    (Output_GetLabeledMarkerGlobalTranslation.mk (f.labeled.getD i ![0, 0, 0]), s)
  GetLatencySampleCount := fun s =>
    (Output_GetLatencySampleCount.mk (toCUInt f.latencyNames.length), s)
  GetLatencySampleName := fun i s => (Output_GetLatencySampleName.mk (f.latencyNames.getD i ""), s)
  GetLatencySampleValue := fun name s => (Output_GetLatencySampleValue.mk (f.latencyValue name), s)

/-- A frame with three subjects, of which `"c"` is occluded, three unlabeled
and two labeled markers, and two latency samples. -/
def exampleFrame : Snapshot where
  subjects := ["b", "a", "c"]
  translation := fun name =>
    if name = "a" then Output_GetSegmentGlobalTranslation.mk Result.Success ![1000, 2000, 3000] false
    else if name = "b" then Output_GetSegmentGlobalTranslation.mk Result.Success ![500, 0, 0] false
    else Output_GetSegmentGlobalTranslation.mk Result.Success ![1, 1, 1] true
  rotation := fun _ => Output_GetSegmentGlobalRotationQuaternion.mk Result.Success ![0, 0, 0, 1] false
  unlabeled := [![1000, 0, 0], ![0, 1000, 0], ![0, 0, 1000]]
  labeled := [![2000, 0, 0], ![0, 2000, 0]]
  latencyNames := ["a", "b"]
  latencyValue := fun name => if name = "a" then 1 / 1000 else 2 / 1000

/-- An adapter on a `Snapshot.client` in state `s`, with the given flag and
contents of its buffers. -/
def adapterOn (s : List Result) (addLabeledMarkersToPointcloud : Bool)
    (pointcloud_ : PointCloud ℚ) : MotionCaptureVicon (List Result) ℚ ℚ :=
  MotionCaptureVicon.mk (MotionCaptureViconImpl.mk s "1.2.3") addLabeledMarkersToPointcloud
    [] pointcloud_ []

/-- A client that reports two subjects, both named `"a"`, and counts the
translation queries it has answered: the first of them reports the
translation `(1000, 0, 0)`, every later one `(2000, 0, 0)`. -/
def twinClient : Client Nat ℚ where
  IsConnected := fun s => (Output_IsConnected.mk true, s)
  Connect := fun _ s => s
  EnableSegmentData := fun s => s
  EnableUnlabeledMarkerData := fun s => s
  EnableMarkerData := fun s => s
  SetStreamModeServerPush := fun s => s
  SetAxisMappingForwardLeftUp := fun s => s
  GetVersion := fun s => (Output_GetVersion.mk (toCUInt 1) (toCUInt 2) (toCUInt 3), s)
  GetFrame := fun s => (Output_GetFrame.mk Result.Success, s)
  GetSubjectCount := fun s => (Output_GetSubjectCount.mk (toCUInt 2), s)
  GetSubjectName := fun _ s => (Output_GetSubjectName.mk "a", s)
  GetSegmentGlobalTranslation := fun _ _ s =>
    (Output_GetSegmentGlobalTranslation.mk Result.Success
      ![if s = 0 then 1000 else 2000, 0, 0] false, s + 1)
  GetSegmentGlobalRotationQuaternion := fun _ _ s =>
    (Output_GetSegmentGlobalRotationQuaternion.mk Result.Success ![0, 0, 0, 1] false, s)
  GetUnlabeledMarkerCount := fun s => (Output_GetUnlabeledMarkerCount.mk (toCUInt 0), s)
  GetUnlabeledMarkerGlobalTranslation := fun _ s =>
    (Output_GetUnlabeledMarkerGlobalTranslation.mk ![0, 0, 0], s)
  GetLabeledMarkerCount := fun s => (Output_GetLabeledMarkerCount.mk (toCUInt 0), s)
  GetLabeledMarkerGlobalTranslation := fun _ s =>
    (Output_GetLabeledMarkerGlobalTranslation.mk ![0, 0, 0], s)
  GetLatencySampleCount := fun s => (Output_GetLatencySampleCount.mk (toCUInt 0), s)
  GetLatencySampleName := fun _ s => (Output_GetLatencySampleName.mk "", s)
  GetLatencySampleValue := fun _ s => (Output_GetLatencySampleValue.mk 0, s)

/-- An adapter on `twinClient` before any translation query. -/
def twinAdapter : MotionCaptureVicon Nat ℚ ℚ :=
  MotionCaptureVicon.mk (MotionCaptureViconImpl.mk 0 "1.2.3") false [] [] []

/-! ## Loops and maps -/

section Lemmas
variable {σ D F : Type}

theorem forLoop_zero {τ : Type} (body : Nat → τ → τ) (init : τ) : forLoop 0 body init = init := rfl

theorem forLoop_succ {τ : Type} (n : Nat) (body : Nat → τ → τ) (init : τ) :
    forLoop (n + 1) body init = body n (forLoop n body init) := by
  simp [forLoop, List.range_succ, List.foldl_append]

theorem usable_iff (a : SubjectAnswer D) : usable a.translation a.quaternion = true ↔ a.passes := by
  simp [usable, SubjectAnswer.passes, and_assoc]

namespace StdMap
variable {V : Type}

theorem find_insertSorted (k : String) (v : V) (m : StdMap V) (h : find k m = none) (k' : String) :
    find k' (insertSorted k v m) = if k' = k then some v else find k' m := by
  induction m with
  | nil => simp [insertSorted, find]
  | cons e rest ih =>
    obtain ⟨k1, v1⟩ := e
    have hk : k ≠ k1 := by
      intro hk; simp [find, hk] at h
    have hrest : find k rest = none := by
      simpa [find, hk] using h
    by_cases hlt : k < k1
    · simp [insertSorted, hlt, find]
    · simp only [insertSorted, hlt, if_false, find, ih hrest]
      by_cases h1 : k' = k
      · subst h1; simp [hk]
      · simp [h1]

theorem find_emplace (k : String) (v : V) (m : StdMap V) (k' : String) :
    find k' (emplace k v m) =
      if k' = k ∧ contains k m = false then some v else find k' m := by
  unfold emplace contains
  cases h : find k m with
  | none => simp [find_insertSorted k v m h]
  | some x => simp

theorem mem_keys_iff (k : String) (m : StdMap V) : k ∈ keys m ↔ find k m ≠ none := by
  induction m with
  | nil => simp [keys, find]
  | cons e rest ih =>
    obtain ⟨k1, v1⟩ := e
    by_cases h : k = k1
    · simp [keys, find, h]
    · have : k ∈ keys rest ↔ find k rest ≠ none := ih
      simp [keys, find, h] at this ⊢
      exact this

end StdMap

theorem rigidBodies_loop (c : Client σ D) (A : Arith D F) (s : σ) (n : Nat) :
    forLoop n (rigidBodiesBody c A) (s, []) = (stateAfter (subjectQuery c) n s, collect c A s n) := by
  induction n with
  | zero => rfl
  | succ n ih =>
    rw [forLoop_succ, ih]
    simp only [rigidBodiesBody, collect, stateAfter, answerAt, subjectQuery, SubjectAnswer.body]
    split <;> rfl

theorem StdMap.contains_eq_false_iff {V : Type} (k : String) (m : StdMap V) :
    StdMap.contains k m = false ↔ StdMap.find k m = none := by
  simp [StdMap.contains]

theorem find_collect_succ (c : Client σ D) (A : Arith D F) (s : σ) (k : Nat) (n : String) :
    StdMap.find n (collect c A s (k + 1)) =
      if usable (answerAt (subjectQuery c) s k).translation
            (answerAt (subjectQuery c) s k).quaternion = true
          ∧ n = (answerAt (subjectQuery c) s k).name
          ∧ StdMap.contains n (collect c A s k) = false
      then some ((answerAt (subjectQuery c) s k).body A)
      else StdMap.find n (collect c A s k) := by
  simp only [collect]
  by_cases hu : usable (answerAt (subjectQuery c) s k).translation
      (answerAt (subjectQuery c) s k).quaternion = true
  · rw [if_pos hu, StdMap.find_emplace]
    by_cases hn : n = (answerAt (subjectQuery c) s k).name
    · subst hn
      simp [hu]
    · simp [hn]
  · rw [if_neg hu]
    simp [hu]

theorem find_collect_eq_none (c : Client σ D) (A : Arith D F) (s : σ) (k : Nat) (n : String) :
    StdMap.find n (collect c A s k) = none ↔
      ∀ i, i < k → (answerAt (subjectQuery c) s i).name = n →
        ¬ (answerAt (subjectQuery c) s i).passes := by
  induction k with
  | zero => simp [collect, StdMap.find]
  | succ k ih =>
    rw [find_collect_succ]
    constructor
    · intro h i hi hname hp
      split at h
      · exact absurd h (by simp)
      · rename_i hc
        rcases Nat.lt_succ_iff_lt_or_eq.1 hi with hlt | heq
        · exact ih.1 h i hlt hname hp
        · subst heq
          exact hc ⟨(usable_iff _).2 hp, hname.symm, (StdMap.contains_eq_false_iff _ _).2 h⟩
    · intro h
      have hk : StdMap.find n (collect c A s k) = none :=
        ih.2 (fun i hi => h i (Nat.lt_succ_of_lt hi))
      rw [if_neg, hk]
      intro hc
      exact h k (Nat.lt_succ_self k) hc.2.1.symm ((usable_iff _).1 hc.1)

theorem find_collect_first (c : Client σ D) (A : Arith D F) (s : σ) (n : String) (i : Nat)
    (hname : (answerAt (subjectQuery c) s i).name = n)
    (hp : (answerAt (subjectQuery c) s i).passes)
    (hfirst : ∀ j, j < i → (answerAt (subjectQuery c) s j).name = n →
      ¬ (answerAt (subjectQuery c) s j).passes) (k : Nat) (hk : i < k) :
    StdMap.find n (collect c A s k) = some ((answerAt (subjectQuery c) s i).body A) := by
  induction k with
  | zero => exact absurd hk (Nat.not_lt_zero _)
  | succ k ih =>
    rw [find_collect_succ]
    rcases Nat.lt_succ_iff_lt_or_eq.1 hk with hlt | heq
    · have h := ih hlt
      rw [if_neg, h]
      intro hc
      have := (StdMap.contains_eq_false_iff _ _).1 hc.2.2
      rw [h] at this
      exact absurd this (by simp)
    · subst heq
      have hnone := (find_collect_eq_none c A s i n).2 hfirst
      rw [if_pos ⟨(usable_iff _).2 hp, hname.symm, (StdMap.contains_eq_false_iff _ _).2 hnone⟩]

theorem collect_congr (c : Client σ D) (A : Arith D F) (s s' : σ) (k : Nat)
    (h : ∀ i, i < k → answerAt (subjectQuery c) s i = answerAt (subjectQuery c) s' i) :
    collect c A s k = collect c A s' k := by
  induction k with
  | zero => rfl
  | succ k ih =>
    simp only [collect]
    rw [ih (fun i hi => h i (Nat.lt_succ_of_lt hi)), h k (Nat.lt_succ_self k)]

theorem rigidBodies_eq (c : Client σ D) (A : Arith D F) (self : MotionCaptureVicon σ D F) :
    (rigidBodies c A self).rigidBodies_ =
      collect c A (c.GetSubjectCount self.pImpl.client).2 (subjectCount c self) := by
  simp [rigidBodies, rigidBodies_loop, subjectCount]

end Lemmas

/-! ## The point-cloud loops -/

section PointCloudLemmas
variable {σ D F : Type}

theorem forLoopOpt_succ {τ : Type} (n : Nat) (body : Nat → τ → Option τ) (init : τ) :
    forLoopOpt (n + 1) body init = (forLoopOpt n body init).bind (body n) := by
  simp [forLoopOpt, List.range_succ, List.foldlM_append]

theorem sizeAdd_eq (a b : Nat) (ha : a < UINT_MOD) (hb : b < UINT_MOD) : sizeAdd a b = a + b := by
  unfold sizeAdd
  apply Nat.mod_eq_of_lt
  simp only [UINT_MOD, SIZE_MOD] at *
  omega

theorem length_resize (fresh : Nat → Vector3f F) (buf : PointCloud F) (rows : Nat) :
    (resize fresh buf rows).length = rows := by
  unfold resize
  split
  · assumption
  · simp

/-- A loop that, in round `i`, queries the client and writes the converted
answer to row `off + i`, run for `k` rounds on a matrix with at least
`off + n` rows, `k ≤ n`. -/
theorem fill_loop {α : Type} (q : Nat → σ → α × σ) (conv : α → Vector3f F) (idx : Nat → Nat)
    (off n : Nat) (body : Nat → PointCloudRun σ F → Option (PointCloudRun σ F))
    (hbody : ∀ i st, body i st =
      writeRow (PointCloudRun.mk (q i st.client).2 st.pointcloud_ st.written) (idx i)
        (conv (q i st.client).1))
    (hidx : ∀ i, i < n → idx i = off + i)
    (s : σ) (buf : PointCloud F) (w : List Nat) (hlen : off + n ≤ buf.length)
    (k : Nat) (hk : k ≤ n) :
    ∃ st, forLoopOpt k body (PointCloudRun.mk s buf w) = some st
      ∧ st.client = stateAfter q k s
      ∧ st.written = w ++ (List.range k).map (fun i => off + i)
      ∧ st.pointcloud_.length = buf.length
      ∧ ∀ j, st.pointcloud_[j]? =
          if off ≤ j ∧ j < off + k then some (conv (answerAt q s (j - off))) else buf[j]? := by
  induction k with
  | zero =>
    refine ⟨PointCloudRun.mk s buf w, rfl, rfl, by simp, rfl, ?_⟩
    intro j
    rw [if_neg]
    omega
  | succ k ih =>
    obtain ⟨st, hrun, hclient, hwritten, hlength, hrows⟩ := ih (Nat.le_of_succ_le hk)
    have hin : off + k < st.pointcloud_.length := by omega
    rw [forLoopOpt_succ, hrun, Option.some_bind, hbody, hidx k (by omega)]
    unfold writeRow
    rw [if_pos hin]
    refine ⟨_, rfl, ?_, ?_, ?_, ?_⟩
    · simp only [stateAfter, hclient]
    · simp only [hwritten, List.range_succ, List.map_append, List.map_cons, List.map_nil,
        List.append_assoc]
    · simp only [List.length_set, hlength]
    · intro j
      simp only [List.getElem?_set, hrows]
      by_cases hj : off + k = j
      · subst hj
        simp only [hin, if_true, answerAt, hclient, Nat.add_sub_cancel_left]
        rw [if_pos ⟨Nat.le_add_right _ _, by omega⟩]
      · rw [if_neg hj]
        by_cases h1 : off ≤ j ∧ j < off + k
        · rw [if_pos h1, if_pos ⟨h1.1, by omega⟩]
        · rw [if_neg h1, if_neg]
          omega

end PointCloudLemmas

section PointCloudSpec
variable {σ D F : Type}

theorem unlabeledCount_lt (c : Client σ D) (self : MotionCaptureVicon σ D F) :
    unlabeledCount c self < UINT_MOD :=
  (c.GetUnlabeledMarkerCount self.pImpl.client).1.MarkerCount.isLt

theorem labeledCount_lt (c : Client σ D) (self : MotionCaptureVicon σ D F) :
    labeledCount c self < UINT_MOD :=
  (c.GetLabeledMarkerCount (c.GetUnlabeledMarkerCount self.pImpl.client).2).1.MarkerCount.isLt

theorem resizedRows_eq (c : Client σ D) (self : MotionCaptureVicon σ D F) :
    resizedRows c self =
      if self.addLabeledMarkersToPointcloud then unlabeledCount c self + labeledCount c self
      else unlabeledCount c self := by
  unfold resizedRows
  rw [sizeAdd_eq _ _ (unlabeledCount_lt c self) (labeledCount_lt c self)]

/-- What a run of `pointCloud()` leaves behind. -/
theorem pointCloudRun_spec (c : Client σ D) (A : Arith D F) (fresh : Nat → Vector3f F)
    (self : MotionCaptureVicon σ D F) :
    ∃ st, pointCloudRun c A fresh self = some st
      ∧ st.pointcloud_.length = resizedRows c self
      ∧ st.written = List.range (resizedRows c self)
      ∧ (∀ i, i < unlabeledCount c self →
          st.pointcloud_[i]? = some (mmToVector3f A (unlabeledAnswer c self i).Translation))
      ∧ (self.addLabeledMarkersToPointcloud = true → ∀ j, j < labeledCount c self →
          st.pointcloud_[unlabeledCount c self + j]?
            = some (mmToVector3f A (labeledAnswer c self j).Translation)) := by
  have hU := unlabeledCount_lt c self
  have hL := labeledCount_lt c self
  have hrows := resizedRows_eq c self
  cases hflag : self.addLabeledMarkersToPointcloud with
  | false =>
    rw [hflag] at hrows
    simp only [Bool.false_eq_true, if_false] at hrows
    obtain ⟨st, hrun, -, hwritten, hlength, hget⟩ :=
      fill_loop c.GetUnlabeledMarkerGlobalTranslation
        (fun a => mmToVector3f A a.Translation) (fun i => i) 0 (unlabeledCount c self)
        (unlabeledBody c A) (fun _ _ => rfl) (fun i _ => (Nat.zero_add i).symm)
        (unlabeledStart c self) (resize fresh self.pointcloud_ (unlabeledCount c self)) []
        (by rw [length_resize]; omega) (unlabeledCount c self) (Nat.le_refl _)
    refine ⟨st, ?_, ?_, ?_, ?_, ?_⟩
    · simp only [pointCloudRun, hflag, Bool.false_eq_true, if_false]
      have hrun' : forLoopOpt (c.GetUnlabeledMarkerCount self.pImpl.client).1.MarkerCount.val
          (unlabeledBody c A) (PointCloudRun.mk
            (c.GetLabeledMarkerCount (c.GetUnlabeledMarkerCount self.pImpl.client).2).2
            (resize fresh self.pointcloud_
              (c.GetUnlabeledMarkerCount self.pImpl.client).1.MarkerCount.val) [])
          = some st := hrun
      rw [hrun']
    · rw [hlength, length_resize, hrows]
    · rw [hwritten, hrows]; simp
    · intro i hi
      rw [hget, if_pos ⟨Nat.zero_le _, by omega⟩]
      rfl
    · intro h; exact absurd h (by simp)
  | true =>
    rw [hflag] at hrows
    simp only [if_true] at hrows
    have hsize := sizeAdd_eq _ _ hU hL
    obtain ⟨st, hrun, hclient, hwritten, hlength, hget⟩ :=
      fill_loop c.GetUnlabeledMarkerGlobalTranslation
        (fun a => mmToVector3f A a.Translation) (fun i => i) 0 (unlabeledCount c self)
        (unlabeledBody c A) (fun _ _ => rfl) (fun i _ => (Nat.zero_add i).symm)
        (unlabeledStart c self)
        (resize fresh self.pointcloud_ (sizeAdd (unlabeledCount c self) (labeledCount c self))) []
        (by rw [length_resize, hsize]; omega) (unlabeledCount c self) (Nat.le_refl _)
    rw [length_resize, hsize] at hlength
    obtain ⟨st2, hrun2, -, hwritten2, hlength2, hget2⟩ :=
      fill_loop c.GetLabeledMarkerGlobalTranslation
        (fun a => mmToVector3f A a.Translation) (fun i => sizeAdd i (unlabeledCount c self))
        (unlabeledCount c self) (labeledCount c self)
        (labeledBody c A (unlabeledCount c self)) (fun _ _ => rfl)
        (fun i hi => by
          show sizeAdd i (unlabeledCount c self) = unlabeledCount c self + i
          rw [sizeAdd_eq i _ (Nat.lt_trans hi hL) hU, Nat.add_comm])
        st.client st.pointcloud_ st.written (by rw [hlength])
        (labeledCount c self) (Nat.le_refl _)
    refine ⟨st2, ?_, ?_, ?_, ?_, ?_⟩
    · simp only [pointCloudRun, hflag, if_true]
      have hrun' : forLoopOpt (c.GetUnlabeledMarkerCount self.pImpl.client).1.MarkerCount.val
          (unlabeledBody c A) (PointCloudRun.mk
            (c.GetLabeledMarkerCount (c.GetUnlabeledMarkerCount self.pImpl.client).2).2
            (resize fresh self.pointcloud_
              (sizeAdd (c.GetUnlabeledMarkerCount self.pImpl.client).1.MarkerCount.val
                (c.GetLabeledMarkerCount
                  (c.GetUnlabeledMarkerCount self.pImpl.client).2).1.MarkerCount.val)) [])
          = some st := hrun
      rw [hrun']
      exact hrun2
    · rw [hlength2, hlength, hrows]
    · rw [hwritten2, hwritten, hrows, List.range_add]
      simp
    · intro i hi
      rw [hget2, if_neg (by omega), hget, if_pos ⟨Nat.zero_le _, by omega⟩]
      rfl
    · intro _ j hj
      rw [hget2, if_pos ⟨Nat.le_add_right _ _, by omega⟩, hclient, Nat.add_sub_cancel_left]
      rfl

end PointCloudSpec

section LatencyAndFrames
variable {σ D F : Type}

theorem pointCloud_of_run (c : Client σ D) (A : Arith D F) (fresh : Nat → Vector3f F)
    (self : MotionCaptureVicon σ D F) (st : PointCloudRun σ F)
    (h : pointCloudRun c A fresh self = some st) :
    ∃ out, pointCloud c A fresh self = some out ∧ out.pointcloud_ = st.pointcloud_ := by
  unfold pointCloud
  rw [h]
  exact ⟨_, rfl, rfl⟩

theorem construct_flag (c : Client σ D) (fuel : Nat) (hostname : String)
    (enableObjects enablePointcloud addLabeledMarkersToPointcloud : Bool) (s : σ)
    (built : MotionCaptureVicon σ D F)
    (h : construct c fuel hostname enableObjects enablePointcloud addLabeledMarkersToPointcloud s
      = some built) :
    built.addLabeledMarkersToPointcloud = addLabeledMarkersToPointcloud := by
  unfold construct at h
  split at h
  · exact Option.noConfusion h
  · injection h with h
    rw [← h]

theorem latency_loop (c : Client σ D) (s : σ) (acc : List (LatencyInfo D)) (n : Nat) :
    forLoop n (latencyBody c) (s, acc) =
      (stateAfter (latencyQuery c) n s,
        acc ++ (List.range n).map (fun i =>
          LatencyInfo.mk (answerAt (latencyQuery c) s i).1 (answerAt (latencyQuery c) s i).2)) := by
  induction n with
  | zero => simp [forLoop_zero, stateAfter]
  | succ n ih =>
    rw [forLoop_succ, ih]
    simp only [latencyBody, stateAfter, answerAt, latencyQuery, List.range_succ, List.map_append,
      List.map_cons, List.map_nil, List.append_assoc]

theorem latency_eq (c : Client σ D) (self : MotionCaptureVicon σ D F) :
    (latency c self).latencies_ =
      (List.range (latencyCount c self)).map (fun i =>
        LatencyInfo.mk
          (answerAt (latencyQuery c) (c.GetLatencySampleCount self.pImpl.client).2 i).1
          (answerAt (latencyQuery c) (c.GetLatencySampleCount self.pImpl.client).2 i).2) := by
  simp [latency, latency_loop, latencyCount]

theorem frames_run (c : Client σ D) (k : Nat) :
    ∀ (self : MotionCaptureVicon σ D F) (fuel : Nat),
      frameResult c k self.pImpl.client = Result.Success →
      (∀ j, j < k → frameResult c j self.pImpl.client ≠ Result.Success) → k < fuel →
      waitForNextFrame c fuel self =
        some (MotionCaptureVicon.mk
            (MotionCaptureViconImpl.mk (afterFrames c (k + 1) self.pImpl.client) self.pImpl.version)
            self.addLabeledMarkersToPointcloud self.rigidBodies_ self.pointcloud_ self.latencies_,
          (List.range (k + 1)).map (fun j => frameResult c j self.pImpl.client)) := by
  induction k with
  | zero =>
    intro self fuel hk _ hfuel
    obtain ⟨fuel, rfl⟩ := Nat.exists_eq_succ_of_ne_zero (Nat.ne_of_gt hfuel)
    have h0 : (c.GetFrame self.pImpl.client).1.Result = Result.Success := hk
    simp [waitForNextFrame, h0, afterFrames, frameResult, List.range_succ]
  | succ k ih =>
    intro self fuel hk hbefore hfuel
    obtain ⟨fuel, rfl⟩ := Nat.exists_eq_succ_of_ne_zero
      (Nat.ne_of_gt (Nat.lt_of_le_of_lt (Nat.zero_le _) hfuel))
    have h0 : (c.GetFrame self.pImpl.client).1.Result ≠ Result.Success :=
      hbefore 0 (Nat.succ_pos k)
    have hrec := ih
      (MotionCaptureVicon.mk
        (MotionCaptureViconImpl.mk (c.GetFrame self.pImpl.client).2 self.pImpl.version)
        self.addLabeledMarkersToPointcloud self.rigidBodies_ self.pointcloud_ self.latencies_)
      fuel hk (fun j hj => hbefore (j + 1) (Nat.succ_lt_succ hj)) (Nat.lt_of_succ_lt_succ hfuel)
    rw [waitForNextFrame, if_pos h0]
    simp only [] at hrec ⊢
    rw [hrec]
    simp only [afterFrames, List.range_succ_eq_map (k + 1), List.map_cons, List.map_map,
      frameResult]
    rfl

end LatencyAndFrames

/-! ## Keys of the rigid-body collection -/

section RigidBodyKeys
variable {σ D F : Type}

theorem mem_keys_rigidBodies (c : Client σ D) (A : Arith D F) (self : MotionCaptureVicon σ D F)
    (name : String) :
    name ∈ StdMap.keys (rigidBodies c A self).rigidBodies_ ↔
      ∃ i, i < subjectCount c self ∧ (subjectAnswer c self i).name = name
        ∧ (subjectAnswer c self i).passes := by
  rw [StdMap.mem_keys_iff, rigidBodies_eq, Ne, find_collect_eq_none]
  simp only [subjectAnswer, not_forall, not_not, exists_prop]

/-- C1: a name is a key of the collection `rigidBodies()` returns exactly when
some subject index below the count resolves to it and passes the filter
(both queries `Success`, neither occluded); a name all of whose subjects fail
the filter is absent; with zero subjects the collection is empty. -/
theorem rigidBodies_key_iff (c : Client σ D) (A : Arith D F) (self : MotionCaptureVicon σ D F)
    (name : String) :
    (name ∈ StdMap.keys (rigidBodies c A self).rigidBodies_ ↔
      ∃ i, i < subjectCount c self ∧ (subjectAnswer c self i).name = name
        ∧ (subjectAnswer c self i).translation.Result = Result.Success
        ∧ (subjectAnswer c self i).quaternion.Result = Result.Success
        ∧ (subjectAnswer c self i).translation.Occluded = false
        ∧ (subjectAnswer c self i).quaternion.Occluded = false)
    ∧ ((∀ i, i < subjectCount c self → (subjectAnswer c self i).name = name →
          ((subjectAnswer c self i).translation.Result ≠ Result.Success
            ∨ (subjectAnswer c self i).quaternion.Result ≠ Result.Success
            ∨ (subjectAnswer c self i).translation.Occluded = true
            ∨ (subjectAnswer c self i).quaternion.Occluded = true)) →
        name ∉ StdMap.keys (rigidBodies c A self).rigidBodies_)
    ∧ (subjectCount c self = 0 → (rigidBodies c A self).rigidBodies_ = []) := by
  refine ⟨mem_keys_rigidBodies c A self name, ?_, ?_⟩
  · intro h hmem
    obtain ⟨i, hi, hname, h1, h2, h3, h4⟩ := (mem_keys_rigidBodies c A self name).1 hmem
    rcases h i hi hname with h | h | h | h
    · exact h h1
    · exact h h2
    · rw [h3] at h; exact Bool.noConfusion h
    · rw [h4] at h; exact Bool.noConfusion h
  · intro h0
    rw [rigidBodies_eq, h0]
    rfl

end RigidBodyKeys

/-! ## Single-name lookup -/

section RigidBodyLookup
variable {σ D F : Type}

theorem rigidBodyByName_eq (c : Client σ D) (A : Arith D F) (self : MotionCaptureVicon σ D F)
    (name : String) :
    (rigidBodyByName c A self name).1 =
      if usable (namedAnswer c self name).translation (namedAnswer c self name).quaternion
      then Except.ok ((namedAnswer c self name).body A)
      else Except.error "Unknown rigid body!" := by
  simp only [rigidBodyByName, namedAnswer, segmentQuery, SubjectAnswer.body]
  split <;> rfl

theorem not_passes_iff (a : SubjectAnswer D) :
    ¬ a.passes ↔ (a.translation.Result ≠ Result.Success ∨ a.quaternion.Result ≠ Result.Success
      ∨ a.translation.Occluded = true ∨ a.quaternion.Occluded = true) := by
  simp only [SubjectAnswer.passes, not_and_or, ne_eq, Bool.not_eq_false]

/-- C2: `rigidBodyByName(name)` throws the lookup error exactly when the
translation or the rotation query for that name reports a result other than
`Success` or reports occlusion, and otherwise returns a rigid body; so when a
subject of an earlier `rigidBodies()` call is missing from that call's
collection and the two queries answer for its name as they did then, the
lookup of its name throws. -/
theorem rigidBodyByName_throws_iff (c : Client σ D) (A : Arith D F)
    (self : MotionCaptureVicon σ D F) (name : String) :
    ((rigidBodyByName c A self name).1 = Except.error "Unknown rigid body!" ↔
      ((namedAnswer c self name).translation.Result ≠ Result.Success
        ∨ (namedAnswer c self name).quaternion.Result ≠ Result.Success
        ∨ (namedAnswer c self name).translation.Occluded = true
        ∨ (namedAnswer c self name).quaternion.Occluded = true))
    ∧ ((namedAnswer c self name).translation.Result = Result.Success →
        (namedAnswer c self name).quaternion.Result = Result.Success →
        (namedAnswer c self name).translation.Occluded = false →
        (namedAnswer c self name).quaternion.Occluded = false →
        (rigidBodyByName c A self name).1 = Except.ok ((namedAnswer c self name).body A))
    ∧ (∀ (earlier : MotionCaptureVicon σ D F) (i : Nat), i < subjectCount c earlier →
        (subjectAnswer c earlier i).name = name →
        name ∉ StdMap.keys (rigidBodies c A earlier).rigidBodies_ →
        namedAnswer c self name = subjectAnswer c earlier i →
        (rigidBodyByName c A self name).1 = Except.error "Unknown rigid body!") := by
  have key : (rigidBodyByName c A self name).1 = Except.error "Unknown rigid body!" ↔
      ¬ (namedAnswer c self name).passes := by
    rw [rigidBodyByName_eq, ← usable_iff]
    split <;> simp_all
  refine ⟨key.trans (not_passes_iff _), ?_, ?_⟩
  · intro h1 h2 h3 h4
    rw [rigidBodyByName_eq, if_pos ((usable_iff _).2 ⟨h1, h2, h3, h4⟩)]
  · intro earlier i hi hname habsent hsame
    rw [key, hsame]
    intro hp
    exact habsent ((mem_keys_rigidBodies c A earlier name).2 ⟨i, hi, hname, hp⟩)

end RigidBodyLookup

/-! ## Stored values, name collisions, rebuilds -/

section RigidBodyValues
variable {σ D F : Type}

theorem find_rigidBodies_first (c : Client σ D) (A : Arith D F) (self : MotionCaptureVicon σ D F)
    (name : String) (i : Nat) (hi : i < subjectCount c self)
    (hname : (subjectAnswer c self i).name = name) (hpass : (subjectAnswer c self i).passes)
    (hfirst : ∀ j, j < i → (subjectAnswer c self j).name = name →
      ¬ (subjectAnswer c self j).passes) :
    StdMap.find name (rigidBodies c A self).rigidBodies_
      = some ((subjectAnswer c self i).body A) := by
  rw [rigidBodies_eq]
  exact find_collect_first c A _ name i hname hpass hfirst _ hi

/-- C3: a subject that passes the filter, and whose answers agree with those
of every earlier passing subject of the same name, is stored by
`rigidBodies()` under its name as the body with that name, the position
`(x / 1000, y / 1000, z / 1000)` of its translation `(x, y, z)` and the
orientation `(w, x, y, z) = (r[3], r[0], r[1], r[2])` of its rotation buffer
`r`; `rigidBodyByName(name)` returns the body built the same way from the
answers for `name` when they pass the filter. -/
theorem rigidBody_conversion (c : Client σ D) (A : Arith D F) (self : MotionCaptureVicon σ D F)
    (i : Nat) (hi : i < subjectCount c self) (hpass : (subjectAnswer c self i).passes)
    (hsame : ∀ j, j < i → (subjectAnswer c self j).name = (subjectAnswer c self i).name →
      (subjectAnswer c self j).passes → subjectAnswer c self j = subjectAnswer c self i)
    (caller : MotionCaptureVicon σ D F) (name : String)
    (hnamed : (namedAnswer c caller name).passes) :
    StdMap.find (subjectAnswer c self i).name (rigidBodies c A self).rigidBodies_ =
        some (RigidBody.mk (subjectAnswer c self i).name
          (Vector3f.mk
            (A.toFloat (A.div ((subjectAnswer c self i).translation.Translation 0) A.thousand))
            (A.toFloat (A.div ((subjectAnswer c self i).translation.Translation 1) A.thousand))
            (A.toFloat (A.div ((subjectAnswer c self i).translation.Translation 2) A.thousand)))
          (Quaternionf.mk
            (A.toFloat ((subjectAnswer c self i).quaternion.Rotation 3))
            (A.toFloat ((subjectAnswer c self i).quaternion.Rotation 0))
            (A.toFloat ((subjectAnswer c self i).quaternion.Rotation 1))
            (A.toFloat ((subjectAnswer c self i).quaternion.Rotation 2))))
    ∧ (rigidBodyByName c A caller name).1 =
        Except.ok (RigidBody.mk name
          (Vector3f.mk
            (A.toFloat (A.div ((namedAnswer c caller name).translation.Translation 0) A.thousand))
            (A.toFloat (A.div ((namedAnswer c caller name).translation.Translation 1) A.thousand))
            (A.toFloat (A.div ((namedAnswer c caller name).translation.Translation 2) A.thousand)))
          (Quaternionf.mk
            (A.toFloat ((namedAnswer c caller name).quaternion.Rotation 3))
            (A.toFloat ((namedAnswer c caller name).quaternion.Rotation 0))
            (A.toFloat ((namedAnswer c caller name).quaternion.Rotation 1))
            (A.toFloat ((namedAnswer c caller name).quaternion.Rotation 2)))) := by
  constructor
  · have hex : ∃ j, (subjectAnswer c self j).name = (subjectAnswer c self i).name
        ∧ (subjectAnswer c self j).passes := ⟨i, rfl, hpass⟩
    have hspec := Nat.find_spec hex
    have hle : Nat.find hex ≤ i := Nat.find_min' hex ⟨rfl, hpass⟩
    have hfirst : ∀ j, j < Nat.find hex →
        (subjectAnswer c self j).name = (subjectAnswer c self i).name →
        ¬ (subjectAnswer c self j).passes :=
      fun j hj hn hp => Nat.find_min hex hj ⟨hn, hp⟩
    have hfind := find_rigidBodies_first c A self (subjectAnswer c self i).name (Nat.find hex)
      (Nat.lt_of_le_of_lt hle hi) hspec.1 hspec.2 hfirst
    have heq : subjectAnswer c self (Nat.find hex) = subjectAnswer c self i := by
      rcases Nat.lt_or_eq_of_le hle with hlt | heq
      · exact hsame _ hlt hspec.1 hspec.2
      · rw [heq]
    rw [hfind, heq]
    rfl
  · rw [rigidBodyByName_eq, if_pos ((usable_iff _).2 hnamed)]
    rfl

/-- C6, as the code has it: the first write wins.  When a subject index
resolves to a name and passes the filter and no lower index does both, the
entry `rigidBodies()` stores under that name is the body built from the
answers for that index, whatever later indices of the same name obtain. -/
theorem rigidBodies_first_write_wins (c : Client σ D) (A : Arith D F)
    (self : MotionCaptureVicon σ D F) (name : String) (i : Nat)
    (hi : i < subjectCount c self)
    (hname : (subjectAnswer c self i).name = name) (hpass : (subjectAnswer c self i).passes)
    (hfirst : ∀ j, j < i → (subjectAnswer c self j).name = name →
      ¬ (subjectAnswer c self j).passes) :
    StdMap.find name (rigidBodies c A self).rigidBodies_
      = some (RigidBody.mk name
          (mmToVector3f A (subjectAnswer c self i).translation.Translation)
          (toQuaternionf A (subjectAnswer c self i).quaternion.Rotation)) := by
  rw [find_rigidBodies_first c A self name i hi hname hpass hfirst, ← hname]
  rfl

/-- C8: when a second `rigidBodies()` call, made on the adapter the first one
left, reads the same subject count and obtains the same answers for every
subject index, it returns the same collection; and the collection returned
does not depend on what `rigidBodies_` held before the call. -/
theorem rigidBodies_rebuild_idempotent (c : Client σ D) (A : Arith D F)
    (self : MotionCaptureVicon σ D F)
    (hcount : subjectCount c (rigidBodies c A self) = subjectCount c self)
    (hanswers : ∀ i, i < subjectCount c self →
      subjectAnswer c (rigidBodies c A self) i = subjectAnswer c self i) :
    (rigidBodies c A (rigidBodies c A self)).rigidBodies_ = (rigidBodies c A self).rigidBodies_
    ∧ ∀ before : StdMap (RigidBody F),
        (rigidBodies c A (MotionCaptureVicon.mk self.pImpl self.addLabeledMarkersToPointcloud
          before self.pointcloud_ self.latencies_)).rigidBodies_
          = (rigidBodies c A self).rigidBodies_ := by
  constructor
  · rw [rigidBodies_eq c A (rigidBodies c A self), rigidBodies_eq c A self, hcount]
    exact collect_congr c A _ _ _ hanswers
  · intro before
    rw [rigidBodies_eq, rigidBodies_eq]
    rfl

end RigidBodyValues

/-! ## Point cloud -/

section PointCloudClaims
variable {σ D F : Type}

/-- C4: for an adapter built by the constructor with any flags, at any later
client state and with any contents of its buffers, `pointCloud()` returns a
collection of exactly `U + L` rows when `addLabeledMarkersToPointcloud` was
`true` and exactly `U` rows when it was `false`, with `U` and `L` the
unlabeled and labeled marker counts the call reads. -/
theorem pointCloud_length (c : Client σ D) (A : Arith D F) (fresh : Nat → Vector3f F)
    (fuel : Nat) (hostname : String)
    (enableObjects enablePointcloud addLabeledMarkersToPointcloud : Bool) (s0 : σ)
    (built : MotionCaptureVicon σ D F)
    (hbuilt : construct c fuel hostname enableObjects enablePointcloud
      addLabeledMarkersToPointcloud s0 = some built)
    (s : σ) (rigidBodies_ : StdMap (RigidBody F)) (pointcloud_ : PointCloud F)
    (latencies_ : List (LatencyInfo D)) :
    ∃ out, pointCloud c A fresh (later built s rigidBodies_ pointcloud_ latencies_) = some out
      ∧ out.pointcloud_.length =
          if addLabeledMarkersToPointcloud then
            unlabeledCount c (later built s rigidBodies_ pointcloud_ latencies_)
              + labeledCount c (later built s rigidBodies_ pointcloud_ latencies_)
          else unlabeledCount c (later built s rigidBodies_ pointcloud_ latencies_) := by
  obtain ⟨st, hrun, hlength, -, -, -⟩ :=
    pointCloudRun_spec c A fresh (later built s rigidBodies_ pointcloud_ latencies_)
  obtain ⟨out, hout, hpc⟩ := pointCloud_of_run c A fresh _ st hrun
  refine ⟨out, hout, ?_⟩
  rw [hpc, hlength, resizedRows_eq]
  have hflag : (later built s rigidBodies_ pointcloud_ latencies_).addLabeledMarkersToPointcloud
      = addLabeledMarkersToPointcloud := construct_flag c fuel hostname _ _ _ s0 built hbuilt
  rw [hflag]

/-- C5: in the collection `pointCloud()` returns, row `i` for `i < U` is the
translation of unlabeled marker `i` with each component divided by `1000`,
and, in labeled mode, row `U + j` for `j < L` is the translation of labeled
marker `j` with each component divided by `1000`. -/
theorem pointCloud_rows (c : Client σ D) (A : Arith D F) (fresh : Nat → Vector3f F)
    (self : MotionCaptureVicon σ D F) :
    ∃ out, pointCloud c A fresh self = some out
      ∧ (∀ i, i < unlabeledCount c self →
          out.pointcloud_[i]? = some (Vector3f.mk
            (A.toFloat (A.div ((unlabeledAnswer c self i).Translation 0) A.thousand))
            (A.toFloat (A.div ((unlabeledAnswer c self i).Translation 1) A.thousand))
            (A.toFloat (A.div ((unlabeledAnswer c self i).Translation 2) A.thousand))))
      ∧ (self.addLabeledMarkersToPointcloud = true → ∀ j, j < labeledCount c self →
          out.pointcloud_[unlabeledCount c self + j]? = some (Vector3f.mk
            (A.toFloat (A.div ((labeledAnswer c self j).Translation 0) A.thousand))
            (A.toFloat (A.div ((labeledAnswer c self j).Translation 1) A.thousand))
            (A.toFloat (A.div ((labeledAnswer c self j).Translation 2) A.thousand)))) := by
  obtain ⟨st, hrun, -, -, hun, hlab⟩ := pointCloudRun_spec c A fresh self
  obtain ⟨out, hout, hpc⟩ := pointCloud_of_run c A fresh _ st hrun
  refine ⟨out, hout, ?_, ?_⟩
  · intro i hi
    rw [hpc, hun i hi]
    rfl
  · intro hflag j hj
    rw [hpc, hlab hflag j hj]
    rfl

/-- C10: a run of `pointCloud()` completes without writing outside the
matrix; the row indices it writes are all below the row count it resized the
matrix to, every index below that count is written exactly once, and the rows
it leaves do not depend on what the matrix held before or on what the
reallocated storage held. -/
theorem pointCloud_writes (c : Client σ D) (A : Arith D F) (fresh : Nat → Vector3f F)
    (self : MotionCaptureVicon σ D F) :
    ∃ st, pointCloudRun c A fresh self = some st
      ∧ st.pointcloud_.length = resizedRows c self
      ∧ (∀ i, i ∈ st.written → i < resizedRows c self)
      ∧ (∀ i, i < resizedRows c self → st.written.count i = 1)
      ∧ ∀ (fresh' : Nat → Vector3f F) (before : PointCloud F),
          ∃ st', pointCloudRun c A fresh' (MotionCaptureVicon.mk self.pImpl
              self.addLabeledMarkersToPointcloud self.rigidBodies_ before self.latencies_)
              = some st'
            ∧ st'.pointcloud_ = st.pointcloud_ := by
  obtain ⟨st, hrun, hlength, hwritten, hun, hlab⟩ := pointCloudRun_spec c A fresh self
  refine ⟨st, hrun, hlength, ?_, ?_, ?_⟩
  · intro i hi
    rw [hwritten] at hi
    exact List.mem_range.1 hi
  · intro i hi
    rw [hwritten]
    exact List.count_eq_one_of_mem (List.nodup_range _) (List.mem_range.2 hi)
  · intro fresh' before
    obtain ⟨st', hrun', hlength', -, hun', hlab'⟩ := pointCloudRun_spec c A fresh'
      (MotionCaptureVicon.mk self.pImpl self.addLabeledMarkersToPointcloud self.rigidBodies_
        before self.latencies_)
    refine ⟨st', hrun', ?_⟩
    have hrows : resizedRows c (MotionCaptureVicon.mk self.pImpl
        self.addLabeledMarkersToPointcloud self.rigidBodies_ before self.latencies_)
        = resizedRows c self := rfl
    rw [hrows] at hlength'
    apply List.ext_getElem?
    intro j
    by_cases hj : j < resizedRows c self
    · by_cases hju : j < unlabeledCount c self
      · rw [hun j hju]
        exact hun' j hju
      · have hflag : self.addLabeledMarkersToPointcloud = true := by
          by_contra hf
          rw [resizedRows_eq, if_neg hf] at hj
          exact hju hj
        rw [resizedRows_eq, if_pos hflag] at hj
        have hjl : j - unlabeledCount c self < labeledCount c self := by omega
        have hjeq : j = unlabeledCount c self + (j - unlabeledCount c self) := by omega
        rw [hjeq, hlab hflag _ hjl]
        exact hlab' hflag _ hjl
    · rw [List.getElem?_eq_none (by omega), List.getElem?_eq_none (by omega)]

end PointCloudClaims

/-! ## Latency samples and frame synchronisation -/

section LatencyFrameClaims
variable {σ D F : Type}

/-- C7: `latency()` returns exactly `N` entries, `N` the sample count it
reads; entry `i` holds the name the upstream gave for sample index `i` and
the value the upstream gave when queried by that name; nothing of what
`latencies_` held before the call remains. -/
theorem latency_entries (c : Client σ D) (self : MotionCaptureVicon σ D F) :
    (latency c self).latencies_.length = latencyCount c self
    ∧ (∀ i, i < latencyCount c self →
        (latency c self).latencies_[i]? = some (LatencyInfo.mk
          (c.GetLatencySampleName i (latencyState c self i)).1.Name
          (c.GetLatencySampleValue (c.GetLatencySampleName i (latencyState c self i)).1.Name
            (c.GetLatencySampleName i (latencyState c self i)).2).1.Value))
    ∧ ∀ before : List (LatencyInfo D),
        (latency c (MotionCaptureVicon.mk self.pImpl self.addLabeledMarkersToPointcloud
          self.rigidBodies_ self.pointcloud_ before)).latencies_ = (latency c self).latencies_ := by
  refine ⟨?_, ?_, ?_⟩
  · rw [latency_eq]; simp
  · intro i hi
    rw [latency_eq, List.getElem?_map, List.getElem?_range hi]
    rfl
  · intro before
    rw [latency_eq, latency_eq]
    rfl

/-- C9: when the first `Success` among the results of successive frame
requests is at position `k`, `waitForNextFrame()` returns, given fuel for
more than `k` requests, after exactly `k + 1` requests: the results it
received are those of requests `0, …, k`, all but the last different from
`Success`, and the client is left in the state after `k + 1` requests. -/
theorem waitForNextFrame_requests (c : Client σ D) (self : MotionCaptureVicon σ D F) (k : Nat)
    (hk : frameResult c k self.pImpl.client = Result.Success)
    (hbefore : ∀ j, j < k → frameResult c j self.pImpl.client ≠ Result.Success)
    (fuel : Nat) (hfuel : k < fuel) :
    ∃ out requests, waitForNextFrame c fuel self = some (out, requests)
      ∧ requests.length = k + 1
      ∧ (∀ j, j < k → ∃ r, requests[j]? = some r ∧ r ≠ Result.Success)
      ∧ requests[k]? = some Result.Success
      ∧ requests = (List.range (k + 1)).map (fun j => frameResult c j self.pImpl.client)
      ∧ out.pImpl.client = afterFrames c (k + 1) self.pImpl.client := by
  refine ⟨_, _, frames_run c k self fuel hk hbefore hfuel, ?_, ?_, ?_, rfl, rfl⟩
  · simp
  · intro j hj
    refine ⟨frameResult c j self.pImpl.client, ?_, hbefore j hj⟩
    rw [List.getElem?_map, List.getElem?_range (Nat.lt_succ_of_lt hj)]
    rfl
  · rw [List.getElem?_map, List.getElem?_range (Nat.lt_succ_self k)]
    exact congrArg some hk

end LatencyFrameClaims

/-! ## Worked examples -/

/-- C3 at `exampleFrame`: subject `"a"`, reported at `(1000, 2000, 3000)` mm
with rotation buffer `[0, 0, 0, 1]`, is stored and looked up at `(1, 2, 3)`
with the identity orientation. -/
theorem rigidBody_conversion_example :
    StdMap.find "a" (rigidBodies exampleFrame.client ratArith (adapterOn [] false [])).rigidBodies_
        = some (RigidBody.mk "a" (Vector3f.mk 1 2 3) (Quaternionf.mk 1 0 0 0))
    ∧ (rigidBodyByName exampleFrame.client ratArith (adapterOn [] false []) "a").1
        = Except.ok (RigidBody.mk "a" (Vector3f.mk 1 2 3) (Quaternionf.mk 1 0 0 0)) := by
  have h := rigidBody_conversion exampleFrame.client ratArith (adapterOn [] false []) 1
    (by decide) (by decide)
    (fun j hj hname _ => by
      have hj0 : j = 0 := by omega
      subst hj0
      exact absurd hname (by decide))
    (adapterOn [] false []) "a" (by decide)
  have e1 : (subjectAnswer exampleFrame.client (adapterOn [] false []) 1)
      = SubjectAnswer.mk "a"
          (Output_GetSegmentGlobalTranslation.mk Result.Success ![1000, 2000, 3000] false)
          (Output_GetSegmentGlobalRotationQuaternion.mk Result.Success ![0, 0, 0, 1] false) := by
    rfl
  have e2 : (namedAnswer exampleFrame.client (adapterOn [] false []) "a")
      = SubjectAnswer.mk "a"
          (Output_GetSegmentGlobalTranslation.mk Result.Success ![1000, 2000, 3000] false)
          (Output_GetSegmentGlobalRotationQuaternion.mk Result.Success ![0, 0, 0, 1] false) := by
    rfl
  rw [e1, e2] at h
  norm_num [ratArith] at h
  exact h

theorem twin_subjectAnswer_zero :
    subjectAnswer twinClient twinAdapter 0 = SubjectAnswer.mk "a"
      (Output_GetSegmentGlobalTranslation.mk Result.Success ![1000, 0, 0] false)
      (Output_GetSegmentGlobalRotationQuaternion.mk Result.Success ![0, 0, 0, 1] false) := rfl

theorem twin_subjectAnswer_one :
    subjectAnswer twinClient twinAdapter 1 = SubjectAnswer.mk "a"
      (Output_GetSegmentGlobalTranslation.mk Result.Success ![2000, 0, 0] false)
      (Output_GetSegmentGlobalRotationQuaternion.mk Result.Success ![0, 0, 0, 1] false) := rfl

/-- C6 fails at `twinClient`: both subject indices resolve to `"a"` and pass
the filter, index `0` with translation `(1000, 0, 0)` and index `1` with
`(2000, 0, 0)`; the entry under `"a"` is the body at `(1, 0, 0)` built for
index `0`, not the body at `(2, 0, 0)` built for index `1`. -/
theorem rigidBodies_last_write_loses :
    ¬ LastWriteWins twinClient ratArith twinAdapter
    ∧ StdMap.find "a" (rigidBodies twinClient ratArith twinAdapter).rigidBodies_
        = some (RigidBody.mk "a" (Vector3f.mk 1 0 0) (Quaternionf.mk 1 0 0 0))
    ∧ (subjectAnswer twinClient twinAdapter 1).body ratArith
        = RigidBody.mk "a" (Vector3f.mk 2 0 0) (Quaternionf.mk 1 0 0 0) := by
  have hfirst : StdMap.find "a" (rigidBodies twinClient ratArith twinAdapter).rigidBodies_
      = some (RigidBody.mk "a" (Vector3f.mk 1 0 0) (Quaternionf.mk 1 0 0 0)) := by
    rw [find_rigidBodies_first twinClient ratArith twinAdapter "a" 0 (by decide) rfl (by decide)
      (fun j hj => absurd hj (Nat.not_lt_zero j)), twin_subjectAnswer_zero]
    norm_num [SubjectAnswer.body, mmToVector3f, toQuaternionf, ratArith]
  have hlast : (subjectAnswer twinClient twinAdapter 1).body ratArith
      = RigidBody.mk "a" (Vector3f.mk 2 0 0) (Quaternionf.mk 1 0 0 0) := by
    rw [twin_subjectAnswer_one]
    norm_num [SubjectAnswer.body, mmToVector3f, toQuaternionf, ratArith]
  refine ⟨?_, hfirst, hlast⟩
  intro h
  have h1 := h "a" 0 1 (by decide) (by decide) rfl (by decide) rfl (by decide)
    (fun j hj hjc => absurd hjc (by
      have : subjectCount twinClient twinAdapter = 2 := by decide
      omega))
  rw [hfirst, hlast] at h1
  simp at h1

/-- C6 as amended, at `twinClient`: index `0` is the first to resolve to `"a"`
and pass, and its body is the entry under `"a"`. -/
theorem rigidBodies_first_write_wins_example :
    StdMap.find "a" (rigidBodies twinClient ratArith twinAdapter).rigidBodies_
      = some (RigidBody.mk "a"
          (mmToVector3f ratArith ![1000, 0, 0]) (toQuaternionf ratArith ![0, 0, 0, 1])) :=
  rigidBodies_first_write_wins twinClient ratArith twinAdapter "a" 0 (by decide) rfl (by decide)
    (fun j hj => absurd hj (Nat.not_lt_zero j))

/-- C8 at `exampleFrame`, whose client answers alike in both calls: the
second call returns what the first returned. -/
theorem rigidBodies_rebuild_idempotent_example :
    (rigidBodies exampleFrame.client ratArith
        (rigidBodies exampleFrame.client ratArith (adapterOn [] false []))).rigidBodies_
      = (rigidBodies exampleFrame.client ratArith (adapterOn [] false [])).rigidBodies_
    ∧ ∀ before : StdMap (RigidBody ℚ),
        (rigidBodies exampleFrame.client ratArith
          (MotionCaptureVicon.mk (adapterOn [] false []).pImpl false before [] [])).rigidBodies_
          = (rigidBodies exampleFrame.client ratArith (adapterOn [] false [])).rigidBodies_ :=
  rigidBodies_rebuild_idempotent exampleFrame.client ratArith (adapterOn [] false []) rfl
    (fun _ _ => rfl)

/-- C4 at `exampleFrame` (`U = 3`, `L = 2`), on a matrix that held one row
before the call: five rows in labeled mode, three otherwise. -/
theorem pointCloud_length_example :
    (∃ out, pointCloud exampleFrame.client ratArith (fun _ => Vector3f.mk 7 7 7)
        (later (adapterOn [] true []) [] [] [Vector3f.mk 9 9 9] []) = some out
      ∧ out.pointcloud_.length = 5)
    ∧ (∃ out, pointCloud exampleFrame.client ratArith (fun _ => Vector3f.mk 7 7 7)
        (later (adapterOn [] false []) [] [] [Vector3f.mk 9 9 9] []) = some out
      ∧ out.pointcloud_.length = 3) :=
  ⟨pointCloud_length exampleFrame.client ratArith (fun _ => Vector3f.mk 7 7 7) 1 "vicon"
      true true true [] (adapterOn [] true []) rfl [] [] [Vector3f.mk 9 9 9] [],
   pointCloud_length exampleFrame.client ratArith (fun _ => Vector3f.mk 7 7 7) 1 "vicon"
      true true false [] (adapterOn [] false []) rfl [] [] [Vector3f.mk 9 9 9] []⟩

/-- C9 on a client whose frame requests report `NoFrame`, `NoFrame`,
`Success`, `NoFrame`, …: three requests are issued and the fourth result is
still pending afterwards. -/
theorem waitForNextFrame_requests_example :
    ∃ out requests,
      waitForNextFrame exampleFrame.client 5
          (adapterOn [Result.NoFrame, Result.NoFrame, Result.Success, Result.NoFrame] false [])
        = some (out, requests)
      ∧ requests.length = 2 + 1
      ∧ (∀ j, j < 2 → ∃ r, requests[j]? = some r ∧ r ≠ Result.Success)
      ∧ requests[2]? = some Result.Success
      ∧ requests = [Result.NoFrame, Result.NoFrame, Result.Success]
      ∧ out.pImpl.client = [Result.NoFrame] :=
  waitForNextFrame_requests exampleFrame.client
    (adapterOn [Result.NoFrame, Result.NoFrame, Result.Success, Result.NoFrame] false []) 2
    (by decide) (by decide) 5 (by decide)

/-- C1 at `exampleFrame`, whose subjects are `"b"`, `"a"` and the occluded
`"c"`: the keys are `"a"` and `"b"`, and `"c"` is absent. -/
theorem rigidBodies_key_iff_example :
    "a" ∈ StdMap.keys (rigidBodies exampleFrame.client ratArith (adapterOn [] false [])).rigidBodies_
    ∧ "b" ∈ StdMap.keys
        (rigidBodies exampleFrame.client ratArith (adapterOn [] false [])).rigidBodies_
    ∧ "c" ∉ StdMap.keys
        (rigidBodies exampleFrame.client ratArith (adapterOn [] false [])).rigidBodies_ := by
  refine ⟨?_, ?_, ?_⟩
  · exact (rigidBodies_key_iff exampleFrame.client ratArith (adapterOn [] false []) "a").1.2
      ⟨1, by decide, rfl, rfl, rfl, rfl, rfl⟩
  · exact (rigidBodies_key_iff exampleFrame.client ratArith (adapterOn [] false []) "b").1.2
      ⟨0, by decide, rfl, rfl, rfl, rfl, rfl⟩
  · apply (rigidBodies_key_iff exampleFrame.client ratArith (adapterOn [] false []) "c").2.1
    intro i hi hname
    have hi3 : i < 3 := hi
    interval_cases i
    · exact absurd hname (by decide)
    · exact absurd hname (by decide)
    · exact Or.inr (Or.inr (Or.inl rfl))

/-- C2 at `exampleFrame`: the lookup of the occluded subject `"c"` throws,
the lookup of `"a"` does not. -/
theorem rigidBodyByName_throws_iff_example :
    (rigidBodyByName exampleFrame.client ratArith (adapterOn [] false []) "c").1
        = Except.error "Unknown rigid body!"
    ∧ (rigidBodyByName exampleFrame.client ratArith (adapterOn [] false []) "a").1
        ≠ Except.error "Unknown rigid body!" := by
  constructor
  · exact (rigidBodyByName_throws_iff exampleFrame.client ratArith (adapterOn [] false [])
      "c").1.2 (Or.inr (Or.inr (Or.inl rfl)))
  · intro h
    have := (rigidBodyByName_throws_iff exampleFrame.client ratArith (adapterOn [] false [])
      "a").1.1 h
    revert this
    decide

/-- C7 at `exampleFrame`, on an adapter whose `latencies_` held a stale
entry: two entries, the samples `a` and `b` with their values, in this order. -/
theorem latency_entries_example :
    (latency exampleFrame.client
        (later (adapterOn [] false []) [] [] [] [LatencyInfo.mk "stale" 5])).latencies_.length = 2
    ∧ (latency exampleFrame.client
        (later (adapterOn [] false []) [] [] [] [LatencyInfo.mk "stale" 5])).latencies_[0]?
        = some (LatencyInfo.mk "a" (1 / 1000))
    ∧ (latency exampleFrame.client
        (later (adapterOn [] false []) [] [] [] [LatencyInfo.mk "stale" 5])).latencies_[1]?
        = some (LatencyInfo.mk "b" (2 / 1000)) :=
  ⟨(latency_entries exampleFrame.client
      (later (adapterOn [] false []) [] [] [] [LatencyInfo.mk "stale" 5])).1,
   (latency_entries exampleFrame.client
      (later (adapterOn [] false []) [] [] [] [LatencyInfo.mk "stale" 5])).2.1 0 (by decide),
   (latency_entries exampleFrame.client
      (later (adapterOn [] false []) [] [] [] [LatencyInfo.mk "stale" 5])).2.1 1 (by decide)⟩

/-- C10 at `exampleFrame` in labeled mode, on a matrix that held one row: the
matrix is resized to five rows, and rows `0, …, 4` are written once each. -/
theorem pointCloud_writes_example :
    ∃ st, pointCloudRun exampleFrame.client ratArith (fun _ => Vector3f.mk 7 7 7)
        (adapterOn [] true [Vector3f.mk 9 9 9]) = some st
      ∧ st.pointcloud_.length = 5
      ∧ (∀ i, i ∈ st.written → i < 5)
      ∧ (∀ i, i < 5 → st.written.count i = 1)
      ∧ ∀ (fresh' : Nat → Vector3f ℚ) (before : PointCloud ℚ),
          ∃ st', pointCloudRun exampleFrame.client ratArith fresh' (adapterOn [] true before)
              = some st'
            ∧ st'.pointcloud_ = st.pointcloud_ :=
  pointCloud_writes exampleFrame.client ratArith (fun _ => Vector3f.mk 7 7 7)
    (adapterOn [] true [Vector3f.mk 9 9 9])

/-- C5 at `exampleFrame` in labeled mode, on a matrix that held one row: the
three unlabeled markers fill rows `0, 1, 2` and the two labeled ones rows
`3, 4`, each in metres. -/
theorem pointCloud_rows_example :
    ∃ out, pointCloud exampleFrame.client ratArith (fun _ => Vector3f.mk 7 7 7)
        (adapterOn [] true [Vector3f.mk 9 9 9]) = some out
      ∧ out.pointcloud_[0]? = some (Vector3f.mk 1 0 0)
      ∧ out.pointcloud_[1]? = some (Vector3f.mk 0 1 0)
      ∧ out.pointcloud_[2]? = some (Vector3f.mk 0 0 1)
      ∧ out.pointcloud_[3]? = some (Vector3f.mk 2 0 0)
      ∧ out.pointcloud_[4]? = some (Vector3f.mk 0 2 0) := by
  obtain ⟨out, hout, hun, hlab⟩ := pointCloud_rows exampleFrame.client ratArith
    (fun _ => Vector3f.mk 7 7 7) (adapterOn [] true [Vector3f.mk 9 9 9])
  have h0 := hun 0 (by decide)
  have h1 := hun 1 (by decide)
  have h2 := hun 2 (by decide)
  have h3 := hlab rfl 0 (by decide)
  have h4 := hlab rfl 1 (by decide)
  have e0 : (unlabeledAnswer exampleFrame.client (adapterOn [] true [Vector3f.mk 9 9 9]) 0)
      = Output_GetUnlabeledMarkerGlobalTranslation.mk ![1000, 0, 0] := rfl
  have e1 : (unlabeledAnswer exampleFrame.client (adapterOn [] true [Vector3f.mk 9 9 9]) 1)
      = Output_GetUnlabeledMarkerGlobalTranslation.mk ![0, 1000, 0] := rfl
  have e2 : (unlabeledAnswer exampleFrame.client (adapterOn [] true [Vector3f.mk 9 9 9]) 2)
      = Output_GetUnlabeledMarkerGlobalTranslation.mk ![0, 0, 1000] := rfl
  have e3 : (labeledAnswer exampleFrame.client (adapterOn [] true [Vector3f.mk 9 9 9]) 0)
      = Output_GetLabeledMarkerGlobalTranslation.mk ![2000, 0, 0] := rfl
  have e4 : (labeledAnswer exampleFrame.client (adapterOn [] true [Vector3f.mk 9 9 9]) 1)
      = Output_GetLabeledMarkerGlobalTranslation.mk ![0, 2000, 0] := rfl
  have hU : unlabeledCount exampleFrame.client (adapterOn [] true [Vector3f.mk 9 9 9]) = 3 := by
    decide
  rw [e0] at h0
  rw [e1] at h1
  rw [e2] at h2
  rw [e3, hU] at h3
  rw [e4, hU] at h4
  norm_num [ratArith] at h0 h1 h2 h3 h4
  exact ⟨out, hout, h0, h1, h2, h3, h4⟩

end libmotioncapture
